import Mathlib

/-!
Verification of the image-capture GUI (`lab2_image_capture_gui.py`).

The program is a single-window webcam capture tool. We shallowly embed the
pieces the specification talks about:

* `splitext_ext`, `pyLower`, `pyStr`, `pyDrop` — the Python string primitives
  (`os.path.splitext`, `str.lower`, `str(int)`, `s[k:]`) used by the code,
  restricted to plain file names (no path separators occur in directory
  entries returned by `os.listdir`).
* a directory is a `List Entry`, an entry carrying its file name, whether PIL
  can open it as an image, and its pixel content;
* `get_current_count` — lines 63–79 of the source: filters entries by
  extension and opens each match with `Image.open` (which raises on an
  unreadable file: the loop has no try/except, so the error propagates);
* `save_image` — lines 113–132: recomputes the count, builds the zero-padded
  filename, reads a fresh frame from the camera and, on a successful read,
  writes the raw frame; the camera read outcome and the `cv2.imwrite` outcome
  are invocation parameters of the embedding;
* `video_loop_display` — lines 93–109: the preview transform
  (BGR→RGB, crop 200 left/right, horizontal mirror);
* `destructor` — lines 149–154: camera release plus Tk teardown, with
  `cv2.VideoCapture.release` embedded as idempotent (its documented contract)
  and `Tk.destroy` embedded as raising `TclError` when the application has
  already been destroyed (tkinter's documented behaviour).
-/

/-! ### Python string primitives -/

/-- Index of the last `.` in a list of characters, if any
(Python `p.rfind('.')` restricted to a hit). -/
def lastDotIdx (cs : List Char) : Option Nat :=
  ((List.range cs.length).filter (fun i => cs.getD i ' ' == '.')).getLast?

/-- Embeds `os.path.splitext(p)[1]` for a plain file name (no path
separators): the extension starts at the last dot, unless every character
before that dot is itself a dot (leading dots never start an extension). -/
def splitext_ext (p : String) : String :=
  match lastDotIdx p.data with
  | none => ""
  | some i =>
      if (p.data.take i).all (fun c => c == '.') then ""
      else ⟨p.data.drop i⟩

/-- Embeds Python `str.lower` (ASCII case folding suffices here). -/
def pyLower (s : String) : String := ⟨s.data.map Char.toLower⟩

/-- Embeds Python `s[k:]` on a string. -/
def pyDrop (s : String) (k : Nat) : String := ⟨s.data.drop k⟩

/-- The decimal digit character `d` maps to, as in Python `str(int)`. -/
def pyDigitChar (d : Nat) : Char := Char.ofNat (48 + d)

/-- Fuel-driven most-significant-first decimal digits of `n`. -/
def pyStrAux : Nat → Nat → List Char
  | 0, _ => []
  | fuel + 1, n =>
      if n < 10 then [pyDigitChar n]
      else pyStrAux fuel (n / 10) ++ [pyDigitChar (n % 10)]

/-- Embeds Python `str(n)` for a non-negative integer: the decimal
representation of `n`, most significant digit first, no padding. -/
def pyStr (n : Nat) : String := ⟨pyStrAux (n + 1) n⟩

/-! ### Data model: frames and directory entries -/

/-- A raw camera frame: rows of pixels, each pixel three 8-bit channels in
capture order (the embedding never needs the 8-bit bound). -/
def Frame : Type := List (List (Nat × Nat × Nat))

instance : DecidableEq Frame := by
  unfold Frame
  infer_instance

/-- One entry of the output directory, as `get_current_count` observes it:
its file name, whether `PIL.Image.open` succeeds on it, and its pixel
content (the frame that was written, for files this program saved). -/
structure Entry where
  name : String
  openable : Bool
  content : Frame
deriving DecidableEq

/-- The error `PIL.Image.open` raises on a file it cannot identify. -/
inductive PILError where
  | cannotIdentify
deriving DecidableEq, Repr

/-- Embeds `PIL.Image.open` on a directory entry: returns the image or
raises. -/
def Image_open (e : Entry) : Except PILError Entry :=
  if e.openable then .ok e else .error .cannotIdentify

/-- Line 72: `valid_images = [".jpg"]`. -/
def valid_images : List String := [".jpg"]

/-- Lines 74–75: the extension test applied to a directory entry name:
`os.path.splitext(i)[1].lower() in valid_images`. -/
def is_valid_img_name (name : String) : Bool :=
  valid_images.contains (pyLower (splitext_ext name))

/-- The loop of `get_current_count` (lines 71–77): walk the listing in
order, skip names whose extension does not match, `Image.open` each match
(the open error propagates — there is no try/except) and accumulate the
opened images. -/
def countAux : List Entry → List Entry → Except PILError (List Entry)
  | imgs, [] => .ok imgs
  | imgs, e :: rest =>
      if is_valid_img_name e.name then
        match Image_open e with
        | .ok img => countAux (imgs ++ [img]) rest
        | .error err => .error err
      else countAux imgs rest

/-- Lines 63–79: `get_current_count` returns `len(imgs)` for the accumulated
list of opened images, or propagates the `Image.open` error. -/
def get_current_count (folder : List Entry) : Except PILError Nat :=
  (countAux [] folder).map List.length

/-- Lines 43 and 123: the next number assigned is
`get_current_count(folder) + 1` (the spec's `nextNumber`). -/
def nextNumber (folder : List Entry) : Except PILError Nat :=
  (get_current_count folder).map (fun c => c + 1)

/-! ### save_image -/

/-- Lines 122–125: the saved file's name for sequence number `count`:
`'00000000'[len(str(count)):] + str(count) + '.jpg'`. -/
def save_filename (count : Nat) : String :=
  pyDrop "00000000" (pyStr count).length ++ pyStr count ++ ".jpg"

/-- The session state `save_image` reads and writes: the output directory's
contents and the cached `self.count` field. -/
structure Session where
  output_path : List Entry
  count : Nat
deriving DecidableEq

/-- Lines 113–132: `save_image`. `readResult` is the outcome of
`self.vs.read()` (`none` when the read fails) and `writeOk` the outcome of
`cv2.imwrite`. The count is recomputed and stored first; then the filename
is built; then the frame is read; on a successful read the raw frame is
written (when the write succeeds) and `'save successful.'` is printed
whether or not `cv2.imwrite` returned true — the code never inspects
`saved`. The returned strings are the printed diagnostics (the
`os.path.join` directory prefix of the printed path is elided). A written
file reopens as an image, so its entry is openable. -/
def save_image (s : Session) (readResult : Option Frame) (writeOk : Bool) :
    Except PILError (Session × List String) :=
  match get_current_count s.output_path with
  | .error err => .error err
  | .ok c =>
      let count := c + 1
      let filename := save_filename count
      let logs := ["new save: " ++ filename]
      match readResult with
      | some frame =>
          if writeOk then
            .ok ({ output_path := s.output_path ++ [⟨filename, true, frame⟩],
                   count := count }, logs ++ ["save successful."])
          else
            .ok ({ output_path := s.output_path, count := count },
                 logs ++ ["save successful."])
      | none => .ok ({ output_path := s.output_path, count := count }, logs)

/-! ### The preview transform (video_loop) -/

/-- Line 97: `cv2.cvtColor(frame, cv2.COLOR_BGR2RGB)` — reverse the channel
order of every pixel. -/
def cvtColor_BGR2RGB (f : Frame) : Frame :=
  f.map (List.map (fun p => (p.2.2, p.2.1, p.1)))

/-- Line 101: `ImageOps.crop(im, (200, 0, 200, 0))` — remove 200 pixels from
the left and right border of every row (keep columns 200 to width−200). -/
def crop_lr_200 (f : Frame) : Frame :=
  f.map (fun row => (row.drop 200).take (row.length - 400))

/-- Line 103: `ImageOps.mirror` — flip each row left-to-right. -/
def pil_mirror (f : Frame) : Frame :=
  f.map List.reverse

/-- Lines 93–109: one tick of `video_loop`. On a successful read the
displayed image becomes the converted, cropped, mirrored frame; on a failed
read the previous display is kept. -/
def video_loop_display (readResult : Option Frame) (prev : Option Frame) :
    Option Frame :=
  match readResult with
  | some frame => some (pil_mirror (crop_lr_200 (cvtColor_BGR2RGB frame)))
  | none => prev

/-! ### Shutdown (destructor) -/

/-- The camera handle: whether the device is currently held. -/
structure VideoCaptureState where
  opened : Bool
deriving DecidableEq

/-- Embeds `cv2.VideoCapture.release`: per its documented contract it is
idempotent, never raises, and is safe even if the device was never
successfully opened — it leaves the device closed. -/
def vc_release (_v : VideoCaptureState) : VideoCaptureState :=
  { opened := false }

/-- The error `tkinter` raises when a command runs after the application has
been destroyed. -/
inductive TclError where
  | applicationDestroyed
deriving DecidableEq, Repr

/-- Embeds `Tk.destroy` on the root window: destroys the application the
first time; a second invocation raises `TclError` ("can't invoke destroy
command: application has been destroyed"). -/
def tk_destroy (destroyed : Bool) : Except TclError Bool :=
  if destroyed then .error .applicationDestroyed else .ok true

/-- The state the destructor touches: the camera handle and whether the Tk
root has been destroyed. -/
structure AppState where
  vs : VideoCaptureState
  destroyed : Bool
deriving DecidableEq

/-- Lines 149–154: `destructor`. It releases the camera
(`self.vs.release()`, always succeeds), calls `cv2.destroyAllWindows()`
(a no-op: the program opens no OpenCV windows), then `self.master.destroy()`
— which raises a `TclError` if the root was already destroyed. The release
has already happened by then, so the resulting state is returned alongside
the error, mirroring Python's in-place mutation before the raise. -/
def destructor (s : AppState) : Option TclError × AppState :=
  let vs := vc_release s.vs
  match tk_destroy s.destroyed with
  | .ok d => (none, { vs := vs, destroyed := d })
  | .error err => (some err, { vs := vs, destroyed := s.destroyed })

/-! ### Helper lemmas -/

deriving instance DecidableEq for Except

/-- The predicate `get_current_count` filters the listing by. -/
def isMatch (e : Entry) : Bool := is_valid_img_name e.name

theorem countAux_ok_eq (l : List Entry) : ∀ (imgs res : List Entry),
    countAux imgs l = .ok res → res = imgs ++ l.filter isMatch := by
  induction l with
  | nil =>
      intro imgs res h
      simp only [countAux] at h
      cases h
      simp
  | cons e rest ih =>
      intro imgs res h
      simp only [countAux] at h
      by_cases hv : is_valid_img_name e.name
      · rw [if_pos hv] at h
        by_cases ho : e.openable
        · rw [Image_open, if_pos ho] at h
          have := ih (imgs ++ [e]) res h
          simp [this, isMatch, List.filter_cons, hv]
        · rw [Image_open, if_neg ho] at h
          cases h
      · rw [if_neg hv] at h
        have := ih imgs res h
        simp [this, isMatch, List.filter_cons, hv]

theorem countAux_ok_of_openable (l : List Entry) : ∀ (imgs : List Entry),
    (∀ e ∈ l, is_valid_img_name e.name = true → e.openable = true) →
    countAux imgs l = .ok (imgs ++ l.filter isMatch) := by
  induction l with
  | nil =>
      intro imgs _
      simp [countAux]
  | cons e rest ih =>
      intro imgs hopen
      simp only [countAux]
      by_cases hv : is_valid_img_name e.name
      · have ho : e.openable = true := hopen e (by simp) hv
        rw [if_pos hv, Image_open, if_pos ho]
        show countAux (imgs ++ [e]) rest = _
        rw [ih (imgs ++ [e]) (fun x hx => hopen x (by simp [hx]))]
        simp [isMatch, List.filter_cons, hv]
      · rw [if_neg hv]
        rw [ih imgs (fun x hx => hopen x (by simp [hx]))]
        simp [isMatch, List.filter_cons, hv]

theorem get_current_count_ok_eq (folder : List Entry) (c : Nat)
    (h : get_current_count folder = .ok c) :
    c = (folder.filter isMatch).length := by
  rw [get_current_count] at h
  cases hc : countAux [] folder with
  | ok res =>
      rw [hc] at h
      simp only [Except.map] at h
      cases h
      simp [countAux_ok_eq folder [] res hc]
  | error err =>
      rw [hc] at h
      simp [Except.map] at h

theorem get_current_count_of_openable (folder : List Entry)
    (hopen : ∀ e ∈ folder, is_valid_img_name e.name = true → e.openable = true) :
    get_current_count folder = .ok ((folder.filter isMatch).length) := by
  rw [get_current_count, countAux_ok_of_openable folder [] hopen]
  simp [Except.map]

theorem countAux_append (l₁ l₂ : List Entry) : ∀ imgs : List Entry,
    countAux imgs (l₁ ++ l₂) =
      (countAux imgs l₁).bind (fun r => countAux r l₂) := by
  induction l₁ with
  | nil =>
      intro imgs
      simp [countAux, Except.bind]
  | cons e rest ih =>
      intro imgs
      simp only [List.cons_append, countAux]
      by_cases hv : is_valid_img_name e.name
      · rw [if_pos hv, if_pos hv]
        by_cases ho : e.openable
        · rw [Image_open, if_pos ho]
          exact ih (imgs ++ [e])
        · rw [Image_open, if_neg ho]
          simp [Except.bind]
      · rw [if_neg hv, if_neg hv]
        exact ih imgs

theorem pyStrAux_length_le : ∀ (fuel k n : Nat), 0 < k → n < 10 ^ k →
    n < fuel → (pyStrAux fuel n).length ≤ k := by
  intro fuel
  induction fuel with
  | zero => omega
  | succ fuel ih =>
      intro k n hk hnk hnf
      simp only [pyStrAux]
      by_cases h10 : n < 10
      · simp [h10]
        omega
      · rw [if_neg h10]
        have hk2 : 2 ≤ k := by
          by_contra hlt
          have : k = 1 := by omega
          subst this
          simp at hnk
          omega
        have hdiv : n / 10 < 10 ^ (k - 1) := by
          rw [Nat.div_lt_iff_lt_mul (by omega)]
          have : 10 ^ (k - 1) * 10 = 10 ^ k := by
            rw [← pow_succ]
            congr 1
            omega
          omega
        have hfuel : n / 10 < fuel := by
          have := Nat.div_lt_self (by omega : 0 < n) (by omega : 1 < 10)
          omega
        have := ih (k - 1) (n / 10) (by omega) hdiv hfuel
        simp only [List.length_append, List.length_cons, List.length_nil]
        omega

theorem pyStr_length_le_eight (n : Nat) (h : n ≤ 99999999) :
    (pyStr n).length ≤ 8 := by
  have : (pyStrAux (n + 1) n).length ≤ 8 := by
    apply pyStrAux_length_le (n + 1) 8 n (by omega)
    · norm_num
      omega
    · omega
  simpa [pyStr, String.length] using this

theorem nextNumber_ok_eq (folder : List Entry) (a : Nat)
    (h : nextNumber folder = .ok a) :
    a = (folder.filter isMatch).length + 1 := by
  rw [nextNumber] at h
  cases hc : get_current_count folder with
  | ok c =>
      rw [hc] at h
      simp only [Except.map, Except.ok.injEq] at h
      have := get_current_count_ok_eq folder c hc
      omega
  | error err =>
      rw [hc] at h
      simp [Except.map] at h

theorem save_image_none_eq (s : Session) (w : Bool) (c : Nat)
    (h : get_current_count s.output_path = .ok c) :
    save_image s none w =
      .ok ({ output_path := s.output_path, count := c + 1 },
           ["new save: " ++ save_filename (c + 1)]) := by
  simp [save_image, h]

theorem save_image_some_eq (s : Session) (f : Frame) (w : Bool) (c : Nat)
    (h : get_current_count s.output_path = .ok c) :
    save_image s (some f) w =
      .ok ({ output_path :=
               if w then s.output_path ++ [⟨save_filename (c + 1), true, f⟩]
               else s.output_path,
             count := c + 1 },
           ["new save: " ++ save_filename (c + 1), "save successful."]) := by
  cases w <;> simp [save_image, h]

/-! ### Claims -/

/-- **C1**: starting from an empty output directory, the first `nextNumber`
(`get_current_count + 1`) is 1 and the first save writes `00000001.jpg`;
after one save a second `nextNumber` is 2; three consecutive saves with
successful reads and writes leave the directory containing exactly
`00000001.jpg`, `00000002.jpg`, `00000003.jpg`. -/
theorem first_three_saves_number_sequence (f1 f2 f3 : Frame) :
    nextNumber [] = .ok 1 ∧
    save_image ⟨[], 1⟩ (some f1) true =
      .ok (⟨[⟨"00000001.jpg", true, f1⟩], 1⟩,
           ["new save: 00000001.jpg", "save successful."]) ∧
    nextNumber [⟨"00000001.jpg", true, f1⟩] = .ok 2 ∧
    save_image ⟨[⟨"00000001.jpg", true, f1⟩], 1⟩ (some f2) true =
      .ok (⟨[⟨"00000001.jpg", true, f1⟩, ⟨"00000002.jpg", true, f2⟩], 2⟩,
           ["new save: 00000002.jpg", "save successful."]) ∧
    save_image ⟨[⟨"00000001.jpg", true, f1⟩, ⟨"00000002.jpg", true, f2⟩], 2⟩
        (some f3) true =
      .ok (⟨[⟨"00000001.jpg", true, f1⟩, ⟨"00000002.jpg", true, f2⟩,
             ⟨"00000003.jpg", true, f3⟩], 3⟩,
           ["new save: 00000003.jpg", "save successful."]) ∧
    List.map Entry.name
        [⟨"00000001.jpg", true, f1⟩, ⟨"00000002.jpg", true, f2⟩,
         ⟨"00000003.jpg", true, f3⟩] =
      ["00000001.jpg", "00000002.jpg", "00000003.jpg"] :=
  ⟨rfl, rfl, rfl, rfl, rfl, rfl⟩

/-- **C2**: on a directory whose valid-extension entries are all openable as
images, `get_current_count` returns exactly the number of valid-extension
entries, whatever other files are present. -/
theorem countExisting_counts_valid (dir : List Entry) (K : Nat)
    (hopen : ∀ e ∈ dir, is_valid_img_name e.name = true → e.openable = true)
    (hK : (dir.filter isMatch).length = K) :
    get_current_count dir = .ok K := by
  rw [get_current_count_of_openable dir hopen, hK]

/-- Witness for C2: two openable `.jpg`/`.JPG` files (extension matching is
case-insensitive) plus one `.txt` file count as 2. -/
theorem countExisting_counts_valid_witness :
    get_current_count
        [⟨"a.jpg", true, []⟩, ⟨"B.JPG", true, []⟩, ⟨"notes.txt", true, []⟩] =
      .ok 2 :=
  countExisting_counts_valid _ 2 (by decide) (by decide)

/-- **C3**: removing one valid (counted) image file from the directory makes
`nextNumber` strictly smaller than it was before the deletion — the counter
is count-based over the current contents, not maximum-suffix-based. -/
theorem nextNumber_lower_after_delete (l₁ l₂ : List Entry) (e : Entry)
    (a b : Nat) (he : is_valid_img_name e.name = true)
    (ha : nextNumber (l₁ ++ e :: l₂) = .ok a)
    (hb : nextNumber (l₁ ++ l₂) = .ok b) : b < a := by
  have ha2 := nextNumber_ok_eq _ a ha
  have hb2 := nextNumber_ok_eq _ b hb
  have hf : ((l₁ ++ e :: l₂).filter isMatch).length =
      (l₁.filter isMatch).length + 1 + (l₂.filter isMatch).length := by
    have hm : isMatch e = true := he
    simp [List.filter_append, List.filter_cons, hm]
    omega
  have hg : ((l₁ ++ l₂).filter isMatch).length =
      (l₁.filter isMatch).length + (l₂.filter isMatch).length := by
    simp [List.filter_append]
  omega

/-- Witness for C3: deleting the single saved image drops `nextNumber`
from 2 to 1. -/
theorem nextNumber_lower_after_delete_witness : (1 : Nat) < 2 :=
  nextNumber_lower_after_delete [] [] ⟨"a.jpg", true, []⟩ 2 1 rfl rfl rfl

/-- Counterexample for **C4**: a directory holding one `.jpg` entry that
`Image.open` cannot open. `get_current_count` propagates the open error
rather than excluding the entry and returning a count. -/
theorem countExisting_error_on_unreadable :
    get_current_count [⟨"bad.jpg", false, []⟩] = .error .cannotIdentify ∧
    get_current_count [⟨"bad.jpg", false, []⟩] ≠ .ok 0 :=
  ⟨rfl, by decide⟩

/-- **C4 (amended)**: a valid-extension entry that cannot be opened as an
image makes `get_current_count` fail with the propagated `Image.open` error
(there is no try/except around the open); the entry is not silently
excluded and no count is returned. -/
theorem countExisting_raises_on_unreadable (l₁ l₂ : List Entry) (e : Entry)
    (he : is_valid_img_name e.name = true) (ho : e.openable = false)
    (hprev : ∀ x ∈ l₁, is_valid_img_name x.name = true → x.openable = true) :
    get_current_count (l₁ ++ e :: l₂) = .error .cannotIdentify := by
  rw [get_current_count, countAux_append l₁ (e :: l₂) [],
    countAux_ok_of_openable l₁ [] hprev]
  simp [Except.bind, countAux, he, Image_open, ho, Except.map]

/-- Witness for C4 (amended): an unreadable `bad.jpg` sitting after a
readable `ok.jpg` makes the whole count fail. -/
theorem countExisting_raises_on_unreadable_witness :
    get_current_count
        [⟨"ok.jpg", true, []⟩, ⟨"bad.jpg", false, []⟩, ⟨"z.txt", false, []⟩] =
      .error .cannotIdentify :=
  countExisting_raises_on_unreadable [⟨"ok.jpg", true, []⟩]
    [⟨"z.txt", false, []⟩] ⟨"bad.jpg", false, []⟩ rfl rfl (by decide)

/-- Counterexample for **C5**: a save whose read succeeds but whose
`cv2.imwrite` fails (no file is added to the directory) still prints
`save successful.` — the write outcome is not reflected in the reported
diagnostic, because the code never inspects the value of `saved`. -/
theorem save_reports_success_despite_write_failure :
    save_image ⟨[], 1⟩ (some [[(0, 0, 0)]]) false =
      .ok (⟨[], 1⟩, ["new save: 00000001.jpg", "save successful."]) :=
  rfl

/-- **C5 (amended)**: whenever the frame read succeeds, the reported
diagnostic is `new save: <path>` followed by `save successful.`, regardless
of whether the file write succeeded or failed; write failures are not
reported. -/
theorem save_diagnostic_ignores_write_outcome (s : Session) (f : Frame)
    (c : Nat) (w : Bool) (h : get_current_count s.output_path = .ok c) :
    (save_image s (some f) w).map Prod.snd =
      .ok ["new save: " ++ save_filename (c + 1), "save successful."] := by
  rw [save_image_some_eq s f w c h]
  rfl

/-- Witness for C5 (amended): a failed write on an empty directory still
reports success. -/
theorem save_diagnostic_ignores_write_outcome_witness :
    (save_image ⟨[], 1⟩ (some []) false).map Prod.snd =
      .ok ["new save: " ++ save_filename 1, "save successful."] :=
  save_diagnostic_ignores_write_outcome ⟨[], 1⟩ [] 0 false rfl

/-- **C6**: when the camera read fails, `save_image` creates no file: the
directory is unchanged, so a subsequent `get_current_count` returns the same
result as before the invocation. -/
theorem read_failure_leaves_directory_unchanged (s : Session) (w : Bool)
    (s2 : Session) (logs : List String)
    (h : save_image s none w = .ok (s2, logs)) :
    s2.output_path = s.output_path ∧
    get_current_count s2.output_path = get_current_count s.output_path := by
  cases hc : get_current_count s.output_path with
  | ok c =>
      rw [save_image_none_eq s w c hc] at h
      simp only [Except.ok.injEq, Prod.mk.injEq] at h
      obtain ⟨h1, _⟩ := h
      rw [← h1]
      exact ⟨rfl, hc⟩
  | error err =>
      rw [save_image, hc] at h
      exact Except.noConfusion h

/-- Witness for C6: a failed read on an empty directory leaves it empty and
the count unchanged. -/
theorem read_failure_leaves_directory_unchanged_witness :
    (Session.mk [] 1).output_path = (Session.mk [] 1).output_path ∧
    get_current_count (Session.mk [] 1).output_path =
      get_current_count (Session.mk [] 1).output_path :=
  read_failure_leaves_directory_unchanged ⟨[], 1⟩ true ⟨[], 1⟩
    ["new save: 00000001.jpg"] rfl

/-- **C7**: a successful save appends a file whose content is exactly the
frame freshly read from the camera — no channel reorder, no 200-pixel crop,
no mirror — while the image the preview tick displays is the transformed
(converted, cropped, mirrored) frame. -/
theorem saved_frame_is_raw_read (s : Session) (f : Frame) (c : Nat)
    (prev : Option Frame) (h : get_current_count s.output_path = .ok c) :
    save_image s (some f) true =
      .ok (⟨s.output_path ++ [⟨save_filename (c + 1), true, f⟩], c + 1⟩,
           ["new save: " ++ save_filename (c + 1), "save successful."]) ∧
    video_loop_display (some f) prev =
      some (pil_mirror (crop_lr_200 (cvtColor_BGR2RGB f))) := by
  constructor
  · rw [save_image_some_eq s f true c h]
    rfl
  · rfl

/-- Witness for C7: saving on an empty directory stores the raw one-pixel
frame while the preview shows its transform. -/
theorem saved_frame_is_raw_read_witness :
    save_image ⟨[], 1⟩ (some [[(1, 2, 3)]]) true =
      .ok (⟨[⟨save_filename 1, true, [[(1, 2, 3)]]⟩], 1⟩,
           ["new save: " ++ save_filename 1, "save successful."]) ∧
    video_loop_display (some [[(1, 2, 3)]]) none =
      some (pil_mirror (crop_lr_200 (cvtColor_BGR2RGB [[(1, 2, 3)]]))) :=
  saved_frame_is_raw_read ⟨[], 1⟩ [[(1, 2, 3)]] 0 none rfl

/-- Counterexample for **C8**: the sequence number 100000000 is assignable
(it is `get_current_count + 1` on a directory of 99999999 valid images) yet
its basename is the 9-character `100000000`, not an 8-character zero-padded
string: `'00000000'[9:]` is empty, so no padding survives. -/
theorem save_filename_overflow_example :
    save_filename 100000000 = "100000000" ++ ".jpg" ∧
    ("100000000" : String).length ≠ 8 :=
  ⟨rfl, by decide⟩

/-- **C8 (amended)**: for every sequence number `n` with `1 ≤ n ≤ 99999999`,
the file is named with the decimal representation of `n` left-padded with
zeros to exactly 8 characters, followed by the fixed lowercase `.jpg`
extension (so the full name has 12 characters); for larger `n` the padding
is exhausted and the basename is the unpadded decimal representation. -/
theorem save_filename_zero_padded (n : Nat) (h1 : 1 ≤ n)
    (h2 : n ≤ 99999999) :
    save_filename n =
      String.mk (List.replicate (8 - (pyStr n).length) '0') ++ pyStr n ++
        ".jpg" ∧
    (save_filename n).length = 12 := by
  have hd : (pyStr n).length ≤ 8 := pyStr_length_le_eight n h2
  have hdrop : pyDrop "00000000" (pyStr n).length =
      String.mk (List.replicate (8 - (pyStr n).length) '0') := by
    rw [pyDrop]
    have h8 : "00000000".data = List.replicate 8 '0' := by decide
    rw [h8, List.drop_replicate]
  constructor
  · rw [save_filename, hdrop]
  · rw [save_filename, hdrop, String.length_append, String.length_append]
    have hrep : (String.mk (List.replicate (8 - (pyStr n).length) '0')).length
        = 8 - (pyStr n).length := by
      show (List.replicate (8 - (pyStr n).length) '0').length =
        8 - (pyStr n).length
      rw [List.length_replicate]
    rw [hrep]
    have hjpg : (".jpg" : String).length = 4 := rfl
    omega

/-- Witness for C8 (amended): `save_filename 1 = "00000001.jpg"`, 8-digit
basename plus extension, 12 characters in all. -/
theorem save_filename_zero_padded_witness :
    save_filename 1 =
      String.mk (List.replicate (8 - (pyStr 1).length) '0') ++ pyStr 1 ++
        ".jpg" ∧
    (save_filename 1).length = 12 :=
  save_filename_zero_padded 1 (by decide) (by decide)

/-- Counterexample for **C9**: the first destructor call succeeds and
releases the camera, but a second call does not complete without error —
`master.destroy()` raises a `TclError` because the application was already
destroyed (the camera release itself has still happened). -/
theorem second_destructor_call_errors :
    (destructor ⟨⟨true⟩, false⟩).1 = none ∧
    (destructor (destructor ⟨⟨true⟩, false⟩).2).1 =
      some .applicationDestroyed :=
  ⟨rfl, rfl⟩

/-- **C9 (amended)**: after any number of saves, the first destructor call
completes without error and releases the camera (even if the device was
never successfully opened, since `opened` is arbitrary here); the camera
release is idempotent; but a second destructor call reports the `TclError`
raised by destroying the already-destroyed window — only the release step
is safely repeatable (the camera stays released). -/
theorem destructor_first_ok_second_raises (s : AppState)
    (h : s.destroyed = false) :
    (destructor s).1 = none ∧
    (destructor s).2.vs.opened = false ∧
    vc_release (vc_release s.vs) = vc_release s.vs ∧
    (destructor (destructor s).2).1 = some .applicationDestroyed ∧
    (destructor (destructor s).2).2.vs.opened = false := by
  obtain ⟨⟨o⟩, d⟩ := s
  cases d
  · exact ⟨rfl, rfl, rfl, rfl, rfl⟩
  · exact Bool.noConfusion h

/-- Witness for C9 (amended): a device that was never successfully opened is
still released without error by the first call; the second call errors. -/
theorem destructor_first_ok_second_raises_witness :
    (destructor ⟨⟨false⟩, false⟩).1 = none ∧
    (destructor ⟨⟨false⟩, false⟩).2.vs.opened = false ∧
    vc_release (vc_release ⟨false⟩) = vc_release ⟨false⟩ ∧
    (destructor (destructor ⟨⟨false⟩, false⟩).2).1 =
      some .applicationDestroyed ∧
    (destructor (destructor ⟨⟨false⟩, false⟩).2).2.vs.opened = false :=
  destructor_first_ok_second_raises ⟨⟨false⟩, false⟩ rfl

/-- **C10**: `save_image` stores the recomputed count before attempting the
camera read, so even on a failed read — where no file is written and the
directory is untouched — the cached `count` field of the session becomes
`get_current_count(directory) + 1`. -/
theorem count_updated_even_on_read_failure (s : Session) (w : Bool) (c : Nat)
    (h : get_current_count s.output_path = .ok c) :
    save_image s none w =
      .ok (⟨s.output_path, c + 1⟩, ["new save: " ++ save_filename (c + 1)]) :=
  save_image_none_eq s w c h

/-- Witness for C10: a session whose cached count is stale (5) gets it reset
to 1 on an empty directory even though the read fails and nothing is
written. -/
theorem count_updated_even_on_read_failure_witness :
    save_image ⟨[], 5⟩ none true =
      .ok (⟨[], 1⟩, ["new save: " ++ save_filename 1]) :=
  count_updated_even_on_read_failure ⟨[], 5⟩ true 0 rfl
